import Mathlib

/-!
Verification of the context-propagation core of `django_components`
(`src/django_components/context.py`) against its specification.

The embedding models:

* Django's `Context` — the spec's "Scope Store" (§4.1) — as a list of layers
  (`Ctx`), bottom layer first, top layer last, with top-first key lookup,
  writes into the top layer, `flatten`, and `push`.
* Python dictionaries that are shared *by reference* between context layers
  (the slot→component association map and the filled-slots registry) as cells
  in an explicit heap (`St.assocs` / `St.fills`), with layers storing heap
  indices (`Val.assocRef` / `Val.fillRef`).  This makes the copy-on-write
  behaviour of `set_slot_component_association` and `prepare_context`
  observable.
* Python `KeyError` / `TypeError` on failed lookups as an `Except PyErr` result
  (`PyErr.keyError` is the spec's `AssociationNotFoundError` when raised on a
  missing slot association).
-/

namespace DC

/-! ## Python dictionaries as association lists -/

/-- Lookup of a key in a Python dict modelled as an association list
(first binding wins; dicts built by `dset` keep at most one binding per key). -/
def dlookup {α : Type} : List (String × α) → String → Option α
  | [], _ => none
  | kv :: rest, key => if kv.1 = key then some kv.2 else dlookup rest key

/-- Remove every binding of a key from an association list. -/
def dremove {α : Type} : List (String × α) → String → List (String × α)
  | [], _ => []
  | kv :: rest, key => if kv.1 = key then dremove rest key else kv :: dremove rest key

/-- Python `d[key] = value`: (re)bind a key in a dict. -/
def dset {α : Type} (l : List (String × α)) (key : String) (v : α) : List (String × α) :=
  (key, v) :: dremove l key

/-- Left-biased choice on `Option`, mirroring "first layer that has the key". -/
def oor {α : Type} (a b : Option α) : Option α :=
  match a with
  | some v => some v
  | none => b

theorem oor_none_right {α : Type} (a : Option α) : oor a none = a := by
  cases a <;> rfl

theorem oor_assoc {α : Type} (a b c : Option α) :
    oor (oor a b) c = oor a (oor b c) := by
  cases a <;> rfl

theorem dlookup_dremove_ne {α : Type} (l : List (String × α)) (k k9 : String)
    (h : k ≠ k9) : dlookup (dremove l k9) k = dlookup l k := by
  induction l with
  | nil => rfl
  | cons kv rest ih =>
    by_cases hk : kv.1 = k9
    · rw [dremove, if_pos hk, ih, dlookup, if_neg (by rw [hk]; exact fun hh => h hh.symm)]
    · rw [dremove, if_neg hk, dlookup, dlookup]
      by_cases hk2 : kv.1 = k
      · rw [if_pos hk2, if_pos hk2]
      · rw [if_neg hk2, if_neg hk2, ih]

theorem dlookup_dset_self {α : Type} (l : List (String × α)) (k : String) (v : α) :
    dlookup (dset l k v) k = some v := by
  rw [dset, dlookup, if_pos rfl]

theorem dlookup_dset_ne {α : Type} (l : List (String × α)) (k k9 : String) (v : α)
    (h : k ≠ k9) : dlookup (dset l k9 v) k = dlookup l k := by
  rw [dset, dlookup, if_neg (fun hh => h hh.symm), dlookup_dremove_ne _ _ _ h]

theorem dlookup_eq_none_of_not_mem_keys {α : Type} (l : List (String × α)) (k : String)
    (h : k ∉ l.map Prod.fst) : dlookup l k = none := by
  induction l with
  | nil => rfl
  | cons kv rest ih =>
    rw [List.map_cons, List.mem_cons] at h
    push_neg at h
    rw [dlookup, if_neg (fun hh => h.1 hh.symm)]
    exact ih h.2

/-! ## Values stored in a context

A context layer can hold: strings (component ids), Python `None`, integers
(plain template variables), references to heap-allocated shared dicts, and a
whole stored context (the outer root context). -/

inductive Val where
  | str (s : String) : Val
  | vnone : Val
  | int (n : Int) : Val
  | assocRef (r : Nat) : Val
  | fillRef (r : Nat) : Val
  | ctx (dicts : List (List (String × Val))) : Val

/-- One layer of a Django `Context` (a Python dict). -/
abbrev Layer := List (String × Val)

/-- Modelled from the spec: the Scope Store (§4.1), Django's `Context` — an
ordered stack of layers, bottom first, top last.  The engine-builtin defaults
layer is treated as empty (the spec's §4.3 fallback is "an empty scope"). -/
abbrev Ctx := List Layer

/-- Context `__getitem__` / `get`: search layers from the top (last) down. -/
def ctxGet (c : Ctx) (k : String) : Option Val :=
  match c with
  | [] => none
  | d :: rest => oor (ctxGet rest k) (dlookup d k)

/-- Python `key in context`. -/
def ctxContains (c : Ctx) (k : String) : Bool :=
  (ctxGet c k).isSome

/-- The top (most recently pushed) layer, `context.dicts[-1]`. -/
def ctxTop (c : Ctx) : Layer :=
  (c.getLast?).getD []

/-- Context `__setitem__`: write into the top layer. -/
def ctxSet (c : Ctx) (k : String) (v : Val) : Ctx :=
  c.dropLast ++ [dset (ctxTop c) k v]

/-- Context `push` / `update` with a dict argument: append a copied layer. -/
def ctxPush (c : Ctx) (d : Layer) : Ctx :=
  c ++ [d]

/-- Modelled from the spec: a freshly created scope (`Context()` /
`context.new()`) — a single empty layer. -/
def newCtx : Ctx := [[]]

/-- Python dict `update`: later bindings overwrite earlier ones. -/
def dictUpdate (acc d : Layer) : Layer :=
  d.foldl (fun a kv => dset a kv.1 kv.2) acc

/-- Context `flatten()`: merge all layers into one dict, later layers winning. -/
def flatten (c : Ctx) : Layer :=
  c.foldl dictUpdate []

/-! ### Context lemmas -/

theorem ctxGet_append (c1 c2 : Ctx) (k : String) :
    ctxGet (c1 ++ c2) k = oor (ctxGet c2 k) (ctxGet c1 k) := by
  induction c1 with
  | nil => rw [List.nil_append, ctxGet, oor_none_right]
  | cons d rest ih =>
    rw [List.cons_append, ctxGet, ih, ctxGet, oor_assoc]

theorem ctxGet_single (d : Layer) (k : String) :
    ctxGet [d] k = dlookup d k := by
  rw [ctxGet, ctxGet]
  rfl

theorem ctxGet_eq_top_dropLast (c : Ctx) (k : String) :
    ctxGet c k = oor (dlookup (ctxTop c) k) (ctxGet c.dropLast k) := by
  cases hc : c.getLast? with
  | none =>
    have : c = [] := List.getLast?_eq_none_iff.mp hc
    subst this
    rfl
  | some d =>
    obtain ⟨l, rfl⟩ : ∃ l, c = l ++ [d] := by
      rcases List.eq_nil_or_concat c with h | ⟨l, x, hx⟩
      · subst h; simp at hc
      · rw [List.concat_eq_append] at hx
        subst hx
        rw [List.getLast?_concat] at hc
        exact ⟨l, by rw [Option.some_inj.mp hc]⟩
    rw [ctxGet_append, ctxTop, List.getLast?_concat, List.dropLast_concat,
      ctxGet_single]
    rfl

theorem ctxTop_ctxSet (c : Ctx) (k : String) (v : Val) :
    ctxTop (ctxSet c k v) = dset (ctxTop c) k v := by
  rw [ctxSet, ctxTop, List.getLast?_concat]
  rfl

theorem ctxSet_dropLast (c : Ctx) (k : String) (v : Val) :
    (ctxSet c k v).dropLast = c.dropLast := by
  rw [ctxSet, List.dropLast_concat]

theorem ctxGet_ctxSet_self (c : Ctx) (k : String) (v : Val) :
    ctxGet (ctxSet c k v) k = some v := by
  rw [ctxGet_eq_top_dropLast, ctxTop_ctxSet, dlookup_dset_self]
  rfl

theorem ctxGet_ctxSet_ne (c : Ctx) (k k9 : String) (v : Val) (h : k ≠ k9) :
    ctxGet (ctxSet c k9 v) k = ctxGet c k := by
  rw [ctxGet_eq_top_dropLast (ctxSet c k9 v), ctxTop_ctxSet, ctxSet_dropLast,
    dlookup_dset_ne _ _ _ _ h, ← ctxGet_eq_top_dropLast]

theorem dlookup_dictUpdate (d : Layer) (acc : Layer) (k : String)
    (hnd : (d.map Prod.fst).Nodup) :
    dlookup (dictUpdate acc d) k = oor (dlookup d k) (dlookup acc k) := by
  induction d generalizing acc with
  | nil => rfl
  | cons kv rest ih =>
    rw [List.map_cons, List.nodup_cons] at hnd
    have step : dictUpdate acc (kv :: rest) = dictUpdate (dset acc kv.1 kv.2) rest := rfl
    rw [step, ih _ hnd.2]
    by_cases hk : kv.1 = k
    · rw [dlookup_eq_none_of_not_mem_keys rest k (by rw [← hk]; exact hnd.1), ← hk,
        dlookup_dset_self, dlookup, if_pos rfl]
      rfl
    · rw [dlookup_dset_ne _ _ _ _ (fun hh => hk hh.symm), dlookup, if_neg hk]

/-! ## Render state

The context plus an explicit heap of the Python dict objects that context
layers share by reference: cells for slot→component association maps and for
filled-slots registries. -/

/-- A slot→component association map (`slot_id → component_id`). -/
abbrev AssocMap := List (String × String)

/-- Fill content is opaque to this core (`FillContent` in the source). -/
abbrev FillContent := Nat

/-- A filled-slots registry (`component_id + "__" + slot_name → fill`). -/
abbrev FillMap := List (String × FillContent)

structure St where
  ctx : Ctx
  assocs : List AssocMap
  fills : List FillMap

/-- Python exceptions surfaced by the accessors.  `keyError` raised on a
missing slot association is what the spec calls `AssociationNotFoundError`. -/
inductive PyErr where
  | keyError (key : String) : PyErr
  | typeError : PyErr

/-- Modelled from the spec: the `isolation_policy` configuration value
(`SlotContextBehavior` / `SLOT_CONTEXT_BEHAVIOR` in
`django_components.app_settings`, not under `src/`). -/
inductive SlotContextBehavior where
  | default : SlotContextBehavior
  | isolated : SlotContextBehavior

def isIsolated : SlotContextBehavior → Bool
  | SlotContextBehavior.isolated => true
  | SlotContextBehavior.default => false

def FILLED_SLOTS_CONTENT_CONTEXT_KEY : String := "_DJANGO_COMPONENTS_FILLED_SLOTS"
def OUTER_ROOT_CTX_CONTEXT_KEY : String := "_DJANGO_COMPONENTS_OUTER_ROOT_CTX"
def SLOT_COMPONENT_ASSOC_KEY : String := "_DJANGO_COMPONENTS_SLOT_COMP_ASSOC"
def PARENT_COMP_KEY : String := "_DJANGO_COMPONENTS_PARENT_COMP"
def CURRENT_COMP_KEY : String := "_DJANGO_COMPONENTS_CURRENT_COMP"

/-- Python truthiness of a stored value (`None` and empty strings/dicts are
falsy; a `Context` object is always truthy). -/
def valTruthy (st : St) : Val → Bool
  | Val.vnone => false
  | Val.str s => !(s.isEmpty)
  | Val.int n => !(n == 0)
  | Val.assocRef r => !((st.assocs.getD r []).isEmpty)
  | Val.fillRef r => !((st.fills.getD r []).isEmpty)
  | Val.ctx _ => true

/-- Truthiness of `context.get(key)` (absent → `None` → falsy). -/
def truthyOpt (st : St) : Option Val → Bool
  | none => false
  | some v => valTruthy st v

/-! ## The operations of `django_components.context` -/

/-- `set_component_id` (`context.py` lines 79–87). -/
def set_component_id (c : Ctx) (component_id : String) : Ctx :=
  let c1 := ctxSet c PARENT_COMP_KEY ((ctxGet c CURRENT_COMP_KEY).getD Val.vnone)
  ctxSet c1 CURRENT_COMP_KEY (Val.str component_id)

/-- The condition of the first branch of `set_outer_root_context`
(`context.py` lines 139–144), apart from `outer_ctx` being provided. -/
def flattenGuard (policy : SlotContextBehavior) (st : St) : Bool :=
  !(truthyOpt st (ctxGet st.ctx PARENT_COMP_KEY)) &&
  isIsolated policy &&
  ctxContains st.ctx OUTER_ROOT_CTX_CONTEXT_KEY

/-- The "Include the mappings" stanza of `set_outer_root_context`
(`context.py` lines 164–168): copy the association and fill registry
references (not the dicts) into the resulting scope when present. -/
def include_mappings (st : St) (orc : Ctx) : Ctx :=
  let orc1 : Ctx :=
    match ctxGet st.ctx SLOT_COMPONENT_ASSOC_KEY with
    | some v => ctxSet orc SLOT_COMPONENT_ASSOC_KEY v
    | none => orc
  match ctxGet st.ctx FILLED_SLOTS_CONTENT_CONTEXT_KEY with
  | some v => ctxSet orc1 FILLED_SLOTS_CONTENT_CONTEXT_KEY v
  | none => orc1

/-- `set_outer_root_context` (`context.py` lines 122–170).  The isolation
policy (`app_settings.SLOT_CONTEXT_BEHAVIOR`) is threaded as a parameter. -/
def set_outer_root_context (policy : SlotContextBehavior) (st : St)
    (outer_ctx : Option Ctx) : St :=
  let orc : Ctx :=
    match outer_ctx with
    | some oc =>
      if flattenGuard policy st then ctxPush newCtx (flatten oc)
      else if 1 < oc.length then ctxPush newCtx (oc.getD 1 [])
      else newCtx
    | none => newCtx
  { st with ctx := ctxSet st.ctx OUTER_ROOT_CTX_CONTEXT_KEY (Val.ctx (include_mappings st orc)) }

/-- `get_outer_root_context` (`context.py` lines 113–119). -/
def get_outer_root_context (st : St) : Option Val :=
  ctxGet st.ctx OUTER_ROOT_CTX_CONTEXT_KEY

/-- The context stored under `OUTER_ROOT_CTX_CONTEXT_KEY` (empty if absent);
observation helper for the theorems below. -/
def storedRoot (st : St) : Ctx :=
  match get_outer_root_context st with
  | some (Val.ctx d) => d
  | _ => []

/-- First stanza of `prepare_context` (`context.py` lines 34–35):
`if outer_context is not None: set_outer_root_context(context, outer_context)`. -/
def prepare_context_step_root (policy : SlotContextBehavior) (st : St)
    (outer_context : Option Ctx) : St :=
  match outer_context with
  | some _ => set_outer_root_context policy st outer_context
  | none => st

/-- Second stanza of `prepare_context` (`context.py` lines 39–40): initialize
the slot→component association map once per render chain. -/
def prepare_context_step_assoc (st : St) : St :=
  if ctxContains st.ctx SLOT_COMPONENT_ASSOC_KEY then st
  else { st with
    assocs := st.assocs ++ [[]],
    ctx := ctxSet st.ctx SLOT_COMPONENT_ASSOC_KEY (Val.assocRef st.assocs.length) }

/-- Third stanza of `prepare_context` (`context.py` lines 41–42): initialize
the filled-slots registry once per render chain. -/
def prepare_context_step_fills (st : St) : St :=
  if ctxContains st.ctx FILLED_SLOTS_CONTENT_CONTEXT_KEY then st
  else { st with
    fills := st.fills ++ [[]],
    ctx := ctxSet st.ctx FILLED_SLOTS_CONTENT_CONTEXT_KEY (Val.fillRef st.fills.length) }

/-- Fourth stanza of `prepare_context` (`context.py` lines 54–55): inside a
`{% for %}` loop, rebind the association key in the top layer to a disposable
shallow copy of the currently visible map. -/
def prepare_context_step_forloop (st : St) : St :=
  if ctxContains st.ctx "forloop" then
    match ctxGet st.ctx SLOT_COMPONENT_ASSOC_KEY with
    | some (Val.assocRef r) =>
      { st with
        assocs := st.assocs ++ [st.assocs.getD r []],
        ctx := ctxSet st.ctx SLOT_COMPONENT_ASSOC_KEY (Val.assocRef st.assocs.length) }
    | _ => st
  else st

/-- `prepare_context` (`context.py` lines 27–57): set the outer root context
when an outer context is given, initialize the two shared registries once,
branch the association map when inside a `{% for %}` loop, and stamp the
component id. -/
def prepare_context (policy : SlotContextBehavior) (st : St)
    (outer_context : Option Ctx) (component_id : String) : St :=
  let st4 : St :=
    prepare_context_step_forloop
      (prepare_context_step_fills
        (prepare_context_step_assoc
          (prepare_context_step_root policy st outer_context)))
  { st4 with ctx := set_component_id st4.ctx component_id }

/-- `get_slot_fill` (`context.py` lines 90–98): `context[KEY]` raises
`KeyError` when the registry is absent; an absent composite key is `None`. -/
def get_slot_fill (st : St) (component_id slot_name : String) :
    Except PyErr (Option FillContent) :=
  match ctxGet st.ctx FILLED_SLOTS_CONTENT_CONTEXT_KEY with
  | some (Val.fillRef f) =>
    Except.ok (dlookup (st.fills.getD f []) (component_id ++ "__" ++ slot_name))
  | some _ => Except.error PyErr.typeError
  | none => Except.error (PyErr.keyError FILLED_SLOTS_CONTENT_CONTEXT_KEY)

/-- `set_slot_fill` (`context.py` lines 101–110). -/
def set_slot_fill (st : St) (component_id slot_name : String) (value : FillContent) :
    Except PyErr St :=
  match ctxGet st.ctx FILLED_SLOTS_CONTENT_CONTEXT_KEY with
  | some (Val.fillRef f) =>
    Except.ok { st with
      fills := st.fills.set f
        (dset (st.fills.getD f []) (component_id ++ "__" ++ slot_name) value) }
  | some _ => Except.error PyErr.typeError
  | none => Except.error (PyErr.keyError FILLED_SLOTS_CONTENT_CONTEXT_KEY)

/-- `set_slot_component_association` (`context.py` lines 173–205): if the top
layer has no binding for the association key, clone the currently visible map
into the top layer (a fresh heap cell), then write into the visible map. -/
def set_slot_component_association (st : St) (slot_id component_id : String) :
    Except PyErr St :=
  let step1 : Except PyErr St :=
    if (dlookup (ctxTop st.ctx) SLOT_COMPONENT_ASSOC_KEY).isSome then Except.ok st
    else
      match ctxGet st.ctx SLOT_COMPONENT_ASSOC_KEY with
      | some (Val.assocRef r) =>
        Except.ok { st with
          assocs := st.assocs ++ [st.assocs.getD r []],
          ctx := ctxSet st.ctx SLOT_COMPONENT_ASSOC_KEY (Val.assocRef st.assocs.length) }
      | some _ => Except.error PyErr.typeError
      | none => Except.error (PyErr.keyError SLOT_COMPONENT_ASSOC_KEY)
  match step1 with
  | Except.error e => Except.error e
  | Except.ok st1 =>
    match ctxGet st1.ctx SLOT_COMPONENT_ASSOC_KEY with
    | some (Val.assocRef r) =>
      Except.ok { st1 with
        assocs := st1.assocs.set r (dset (st1.assocs.getD r []) slot_id component_id) }
    | some _ => Except.error PyErr.typeError
    | none => Except.error (PyErr.keyError SLOT_COMPONENT_ASSOC_KEY)

/-- `get_slot_component_association` (`context.py` lines 208–215): a plain
dict lookup, raising `KeyError` (the spec's `AssociationNotFoundError`) when
the slot has no association. -/
def get_slot_component_association (st : St) (slot_id : String) :
    Except PyErr String :=
  match ctxGet st.ctx SLOT_COMPONENT_ASSOC_KEY with
  | some (Val.assocRef r) =>
    match dlookup (st.assocs.getD r []) slot_id with
    | some component_id => Except.ok component_id
    | none => Except.error (PyErr.keyError slot_id)
  | some _ => Except.error PyErr.typeError
  | none => Except.error (PyErr.keyError SLOT_COMPONENT_ASSOC_KEY)

/-- Modelled from the spec: `find_last_index` from `django_components.utils`
(not under `src/`) — the index of the last list element satisfying the
predicate.  Its callers in `context.py` only invoke it when such an element
exists; outside that the value is irrelevant (0 here). -/
def find_last_index {α : Type} (l : List α) (p : α → Bool) : Nat :=
  match l with
  | [] => 0
  | _ :: xs => if xs.any p then find_last_index xs p + 1 else 0

/-- A layer pushed by Django's `ForNode` carries the `"forloop"` key. -/
def hasForloop (d : Layer) : Bool :=
  (dlookup d "forloop").isSome

/-- `copy_forloop_context` (`context.py` lines 218–228): copy the whole layer
set by the innermost `ForNode` (it also holds the loop-variable bindings) into
the target context (`Context.update` pushes it as a new layer). -/
def copy_forloop_context (from_context to_context : Ctx) : Ctx :=
  if ctxContains from_context "forloop" then
    ctxPush to_context (from_context.getD (find_last_index from_context hasForloop) [])
  else to_context

/-! ## Concrete states used by the witness and counterexample theorems -/

def stC6 : St := ⟨[[(SLOT_COMPONENT_ASSOC_KEY, Val.assocRef 0)]], [[("s1", "c1")]], []⟩

def stC7 : St := ⟨[[(FILLED_SLOTS_CONTENT_CONTEXT_KEY, Val.fillRef 0)]], [], [[("c1__other", 5)]]⟩

def fillSt0 : St := ⟨[[(FILLED_SLOTS_CONTENT_CONTEXT_KEY, Val.fillRef 0)]], [], [[]]⟩

def stC10 : St := ⟨[[]], [], []⟩

def stC3 : St := ⟨[[(SLOT_COMPONENT_ASSOC_KEY, Val.assocRef 0)], []], [[("s0", "c0")]], []⟩

def stC4 : St :=
  ⟨[[(SLOT_COMPONENT_ASSOC_KEY, Val.assocRef 0),
     (FILLED_SLOTS_CONTENT_CONTEXT_KEY, Val.fillRef 0),
     ("forloop", Val.vnone)]],
   [[("s0", "c0")]], [[]]⟩

def fcW : Ctx := [[("forloop", Val.vnone), ("item", Val.int 3)], [("x", Val.int 1)]]

def tcW : Ctx := [[]]

def cexSt : St := ⟨[[]], [], []⟩

def cexOuter : Ctx := [[("d", Val.int 0)], [("a", Val.int 1)], [("b", Val.int 2)]]

def stW : St := ⟨[[(OUTER_ROOT_CTX_CONTEXT_KEY, Val.vnone)]], [], []⟩

def wD : Layer := [("d", Val.int 0)]

def wLa : Layer := [("a", Val.int 1), ("x", Val.int 7)]

def wLb : Layer := [("b", Val.int 2), ("x", Val.int 9)]

/-! ## Derived lemmas about the model -/

theorem ctxContains_ctxSet_self (c : Ctx) (k : String) (v : Val) :
    ctxContains (ctxSet c k v) k = true := by
  rw [ctxContains, ctxGet_ctxSet_self]
  rfl

theorem ctxContains_ctxSet_ne (c : Ctx) (k k9 : String) (v : Val) (h : k ≠ k9) :
    ctxContains (ctxSet c k9 v) k = ctxContains c k := by
  rw [ctxContains, ctxGet_ctxSet_ne _ _ _ _ h, ctxContains]

theorem parent_ne_current : PARENT_COMP_KEY ≠ CURRENT_COMP_KEY := by decide

theorem assoc_ne_parent : SLOT_COMPONENT_ASSOC_KEY ≠ PARENT_COMP_KEY := by decide

theorem assoc_ne_current : SLOT_COMPONENT_ASSOC_KEY ≠ CURRENT_COMP_KEY := by decide

theorem fills_ne_assoc : FILLED_SLOTS_CONTENT_CONTEXT_KEY ≠ SLOT_COMPONENT_ASSOC_KEY := by decide

theorem fills_ne_parent : FILLED_SLOTS_CONTENT_CONTEXT_KEY ≠ PARENT_COMP_KEY := by decide

theorem fills_ne_current : FILLED_SLOTS_CONTENT_CONTEXT_KEY ≠ CURRENT_COMP_KEY := by decide

theorem ctxGet_set_component_id (c : Ctx) (component_id k : String)
    (h1 : k ≠ PARENT_COMP_KEY) (h2 : k ≠ CURRENT_COMP_KEY) :
    ctxGet (set_component_id c component_id) k = ctxGet c k := by
  simp only [set_component_id]
  rw [ctxGet_ctxSet_ne _ _ _ _ h2, ctxGet_ctxSet_ne _ _ _ _ h1]

theorem ctxTop_set_component_id (c : Ctx) (component_id : String) :
    ctxTop (set_component_id c component_id)
      = dset (dset (ctxTop c) PARENT_COMP_KEY ((ctxGet c CURRENT_COMP_KEY).getD Val.vnone))
          CURRENT_COMP_KEY (Val.str component_id) := by
  simp only [set_component_id]
  rw [ctxTop_ctxSet, ctxTop_ctxSet]

theorem dropLast_set_component_id (c : Ctx) (component_id : String) :
    (set_component_id c component_id).dropLast = c.dropLast := by
  simp only [set_component_id]
  rw [ctxSet_dropLast, ctxSet_dropLast]

theorem getD_append_length {α : Type} (l : List α) (x d : α) :
    (l ++ [x]).getD l.length d = x := by
  induction l with
  | nil => rfl
  | cons a as ih => exact ih

theorem getD_append_lt {α : Type} (l l2 : List α) (i : Nat) (d : α) (h : i < l.length) :
    (l ++ l2).getD i d = l.getD i d := by
  induction l generalizing i with
  | nil => exact absurd h (Nat.not_lt_zero i)
  | cons a as ih =>
    cases i with
    | zero => rfl
    | succ j => exact ih j (Nat.lt_of_succ_lt_succ h)

theorem set_append_length {α : Type} (l : List α) (x y : α) :
    (l ++ [x]).set l.length y = l ++ [y] := by
  induction l with
  | nil => rfl
  | cons a as ih => exact congrArg (a :: ·) ih

/-! ## Claim theorems -/

/-- C5: after `set_component_id(scope, new_component_id)`, the parent component
id equals the value the current component id had just before the call (`None`
when no component was current) and the current component id equals
`new_component_id`; nesting A→B→C accordingly yields parents B, A, `None` in
call order. -/
theorem set_component_id_parent_chain (c : Ctx) (component_id : String) :
    ctxGet (set_component_id c component_id) PARENT_COMP_KEY
      = some ((ctxGet c CURRENT_COMP_KEY).getD Val.vnone) ∧
    ctxGet (set_component_id c component_id) CURRENT_COMP_KEY
      = some (Val.str component_id) ∧
    ctxGet (set_component_id (set_component_id (set_component_id newCtx "A") "B") "C")
      PARENT_COMP_KEY = some (Val.str "B") ∧
    ctxGet (set_component_id (set_component_id newCtx "A") "B") PARENT_COMP_KEY
      = some (Val.str "A") ∧
    ctxGet (set_component_id newCtx "A") PARENT_COMP_KEY = some Val.vnone := by
  refine ⟨?_, ?_, rfl, rfl, rfl⟩
  · simp only [set_component_id]
    rw [ctxGet_ctxSet_ne _ _ _ _ parent_ne_current, ctxGet_ctxSet_self]
  · simp only [set_component_id]
    rw [ctxGet_ctxSet_self]

/-- C6: `get_slot_component_association` returns the bound component id when an
association for the slot is visible, and fails with a key-lookup error (the
spec's `AssociationNotFoundError`) when none was registered — including when
the association registry itself was never initialized. -/
theorem get_slot_assoc_found_or_error (st : St) (slot_id : String) :
    (∀ r component_id,
       ctxGet st.ctx SLOT_COMPONENT_ASSOC_KEY = some (Val.assocRef r) →
       dlookup (st.assocs.getD r []) slot_id = some component_id →
       get_slot_component_association st slot_id = Except.ok component_id) ∧
    (∀ r,
       ctxGet st.ctx SLOT_COMPONENT_ASSOC_KEY = some (Val.assocRef r) →
       dlookup (st.assocs.getD r []) slot_id = none →
       get_slot_component_association st slot_id = Except.error (PyErr.keyError slot_id)) ∧
    (ctxGet st.ctx SLOT_COMPONENT_ASSOC_KEY = none →
       get_slot_component_association st slot_id
         = Except.error (PyErr.keyError SLOT_COMPONENT_ASSOC_KEY)) := by
  refine ⟨?_, ?_, ?_⟩
  · intro r component_id h1 h2
    simp only [get_slot_component_association, h1, h2]
  · intro r h1 h2
    simp only [get_slot_component_association, h1, h2]
  · intro h1
    simp only [get_slot_component_association, h1]

/-- C6 witness: on a concrete scope, the registered slot resolves and an
unregistered slot raises. -/
theorem get_slot_assoc_found_or_error_witness :
    get_slot_component_association stC6 "s1" = Except.ok "c1" ∧
    get_slot_component_association stC6 "s2" = Except.error (PyErr.keyError "s2") :=
  ⟨(get_slot_assoc_found_or_error stC6 "s1").1 0 "c1" rfl rfl,
   (get_slot_assoc_found_or_error stC6 "s2").2.1 0 rfl rfl⟩

/-- C7: with the filled-slots registry initialized, looking up a fill whose
composite key was never set returns `None` inside a normal result (no
exception), and the lookup is a pure function of the state, so repeated calls
with identical arguments return identical results. -/
theorem get_slot_fill_absent_none (st : St) (f : Nat) (component_id slot_name : String)
    (hvis : ctxGet st.ctx FILLED_SLOTS_CONTENT_CONTEXT_KEY = some (Val.fillRef f))
    (habs : dlookup (st.fills.getD f []) (component_id ++ "__" ++ slot_name) = none) :
    get_slot_fill st component_id slot_name = Except.ok none ∧
    get_slot_fill st component_id slot_name = get_slot_fill st component_id slot_name := by
  refine ⟨?_, rfl⟩
  simp only [get_slot_fill, hvis, habs]

/-- C7 witness: a concrete initialized registry with no matching key. -/
theorem get_slot_fill_absent_none_witness :
    ctxGet stC7.ctx FILLED_SLOTS_CONTENT_CONTEXT_KEY = some (Val.fillRef 0) ∧
    get_slot_fill stC7 "c1" "missing" = Except.ok none :=
  ⟨rfl, (get_slot_fill_absent_none stC7 0 "c1" "missing" rfl rfl).1⟩

/-- C9: the composite fill key `component_id + "__" + slot_name` is not
injective: the distinct pairs `("a", "b__c")` and `("a__b", "c")` produce the
same key, so a fill set for `("a__b", "c")` is returned for `("a", "b__c")`. -/
theorem fill_key_alias :
    (("a", "b__c") ≠ (("a__b", "c") : String × String)) ∧
    ("a" ++ "__" ++ "b__c" = "a__b" ++ "__" ++ "c") ∧
    ∃ st1, set_slot_fill fillSt0 "a__b" "c" 42 = Except.ok st1 ∧
      get_slot_fill st1 "a" "b__c" = Except.ok (some 42) := by
  refine ⟨by decide, rfl, _, rfl, rfl⟩

theorem step_assoc_contains_ne (st : St) (k : String)
    (h : k ≠ SLOT_COMPONENT_ASSOC_KEY) :
    ctxContains (prepare_context_step_assoc st).ctx k = ctxContains st.ctx k := by
  rw [prepare_context_step_assoc]
  by_cases hc : ctxContains st.ctx SLOT_COMPONENT_ASSOC_KEY = true
  · rw [if_pos hc]
  · rw [if_neg hc]
    exact ctxContains_ctxSet_ne _ _ _ _ h

theorem step_fills_contains (st : St) :
    ctxContains (prepare_context_step_fills st).ctx FILLED_SLOTS_CONTENT_CONTEXT_KEY
      = true := by
  rw [prepare_context_step_fills]
  by_cases hc : ctxContains st.ctx FILLED_SLOTS_CONTENT_CONTEXT_KEY = true
  · rw [if_pos hc]
    exact hc
  · rw [if_neg hc]
    exact ctxContains_ctxSet_self _ _ _

theorem step_forloop_contains_ne (st : St) (k : String)
    (h : k ≠ SLOT_COMPONENT_ASSOC_KEY) :
    ctxContains (prepare_context_step_forloop st).ctx k = ctxContains st.ctx k := by
  rw [prepare_context_step_forloop]
  by_cases hf : ctxContains st.ctx "forloop" = true
  · rw [if_pos hf]
    cases hv : ctxGet st.ctx SLOT_COMPONENT_ASSOC_KEY with
    | none => rfl
    | some v =>
      cases v with
      | assocRef r => exact ctxContains_ctxSet_ne _ _ _ _ h
      | str s => rfl
      | vnone => rfl
      | int n => rfl
      | fillRef r => rfl
      | ctx d => rfl
  · rw [if_neg hf]

/-- C10: when no layer of the scope holds the filled-slots registry key, both
fill accessors fail with a key-lookup error instead of returning "not found"
or creating the registry; `prepare_context` is what initializes the key. -/
theorem fill_registry_requires_init (st : St) (component_id slot_name : String)
    (value : FillContent)
    (habs : ctxGet st.ctx FILLED_SLOTS_CONTENT_CONTEXT_KEY = none) :
    get_slot_fill st component_id slot_name
      = Except.error (PyErr.keyError FILLED_SLOTS_CONTENT_CONTEXT_KEY) ∧
    set_slot_fill st component_id slot_name value
      = Except.error (PyErr.keyError FILLED_SLOTS_CONTENT_CONTEXT_KEY) ∧
    ctxContains (prepare_context SlotContextBehavior.default st none component_id).ctx
      FILLED_SLOTS_CONTENT_CONTEXT_KEY = true := by
  refine ⟨?_, ?_, ?_⟩
  · simp only [get_slot_fill, habs]
  · simp only [set_slot_fill, habs]
  · simp only [prepare_context, prepare_context_step_root]
    rw [ctxContains, ctxGet_set_component_id _ _ _ fills_ne_parent fills_ne_current,
      ← ctxContains, step_forloop_contains_ne _ _ fills_ne_assoc, step_fills_contains]

/-- C3: when the top layer does not yet own its own copy of the association
map, `set_slot_component_association` first clones the currently visible map
into a fresh cell bound in the top layer and then writes the binding there:
afterwards the lookup returns the new component id, while the map cell shared
by the lower layers is unchanged and still lacks the new binding. -/
theorem slot_assoc_copy_on_write (st : St) (slot_id component_id : String) (r : Nat)
    (htop : dlookup (ctxTop st.ctx) SLOT_COMPONENT_ASSOC_KEY = none)
    (hvis : ctxGet st.ctx SLOT_COMPONENT_ASSOC_KEY = some (Val.assocRef r))
    (hr : r < st.assocs.length)
    (hnotin : dlookup (st.assocs.getD r []) slot_id = none) :
    ∃ st1, set_slot_component_association st slot_id component_id = Except.ok st1 ∧
      get_slot_component_association st1 slot_id = Except.ok component_id ∧
      st1.assocs.getD r [] = st.assocs.getD r [] ∧
      dlookup (st1.assocs.getD r []) slot_id = none ∧
      dlookup (ctxTop st1.ctx) SLOT_COMPONENT_ASSOC_KEY
        = some (Val.assocRef st.assocs.length) := by
  have hb : (dlookup (ctxTop st.ctx) SLOT_COMPONENT_ASSOC_KEY).isSome = false := by
    rw [htop]
    rfl
  refine ⟨⟨ctxSet st.ctx SLOT_COMPONENT_ASSOC_KEY (Val.assocRef st.assocs.length),
      st.assocs ++ [dset (st.assocs.getD r []) slot_id component_id], st.fills⟩,
    ?_, ?_, ?_, ?_, ?_⟩
  · simp only [set_slot_component_association, hb, Bool.false_eq_true, if_false, hvis,
      ctxGet_ctxSet_self, getD_append_length, set_append_length]
  · simp only [get_slot_component_association, ctxGet_ctxSet_self, getD_append_length,
      dlookup_dset_self]
  · exact getD_append_lt _ _ _ _ hr
  · rw [getD_append_lt _ _ _ _ hr]
    exact hnotin
  · rw [ctxTop_ctxSet, dlookup_dset_self]

/-- C3 witness: a two-layer scope whose lower layer holds the shared map. -/
theorem slot_assoc_copy_on_write_witness :
    dlookup (ctxTop stC3.ctx) SLOT_COMPONENT_ASSOC_KEY = none ∧
    ctxGet stC3.ctx SLOT_COMPONENT_ASSOC_KEY = some (Val.assocRef 0) ∧
    dlookup (stC3.assocs.getD 0 []) "s1" = none ∧
    ∃ st1, set_slot_component_association stC3 "s1" "c9" = Except.ok st1 ∧
      get_slot_component_association st1 "s1" = Except.ok "c9" ∧
      st1.assocs.getD 0 [] = stC3.assocs.getD 0 [] ∧
      dlookup (st1.assocs.getD 0 []) "s1" = none ∧
      dlookup (ctxTop st1.ctx) SLOT_COMPONENT_ASSOC_KEY = some (Val.assocRef 1) :=
  ⟨rfl, rfl, rfl,
   slot_assoc_copy_on_write stC3 "s1" "c9" 0 rfl rfl (by decide) rfl⟩

/-- C4: inside a `{% for %}` loop (a `"forloop"` key somewhere in the scope),
`prepare_context` rebinds the association key in the top layer only, to a
fresh shallow copy of the currently visible map; the cell the lower layers
reference is unmodified and the lower layers themselves are untouched.
Without the iteration marker no copy is made. -/
theorem prepare_context_forloop_cow (policy : SlotContextBehavior) (st : St)
    (component_id : String) (r : Nat)
    (hassoc : ctxGet st.ctx SLOT_COMPONENT_ASSOC_KEY = some (Val.assocRef r))
    (hfills : ctxContains st.ctx FILLED_SLOTS_CONTENT_CONTEXT_KEY = true)
    (hr : r < st.assocs.length) :
    (ctxContains st.ctx "forloop" = true →
       dlookup (ctxTop (prepare_context policy st none component_id).ctx)
         SLOT_COMPONENT_ASSOC_KEY = some (Val.assocRef st.assocs.length) ∧
       (prepare_context policy st none component_id).assocs.getD st.assocs.length []
         = st.assocs.getD r [] ∧
       (prepare_context policy st none component_id).assocs.getD r []
         = st.assocs.getD r [] ∧
       (prepare_context policy st none component_id).ctx.dropLast = st.ctx.dropLast) ∧
    (ctxContains st.ctx "forloop" = false →
       (prepare_context policy st none component_id).assocs = st.assocs) := by
  have hca : ctxContains st.ctx SLOT_COMPONENT_ASSOC_KEY = true := by
    rw [ctxContains, hassoc]
    rfl
  have e2 : prepare_context_step_assoc st = st := by
    rw [prepare_context_step_assoc, if_pos hca]
  have e3 : prepare_context_step_fills st = st := by
    rw [prepare_context_step_fills, if_pos hfills]
  have epc : prepare_context policy st none component_id
      = { prepare_context_step_forloop st with
          ctx := set_component_id (prepare_context_step_forloop st).ctx component_id } := by
    simp only [prepare_context, prepare_context_step_root, e2, e3]
  constructor
  · intro hfor
    have esf : prepare_context_step_forloop st
        = { st with
            assocs := st.assocs ++ [st.assocs.getD r []],
            ctx := ctxSet st.ctx SLOT_COMPONENT_ASSOC_KEY
              (Val.assocRef st.assocs.length) } := by
      rw [prepare_context_step_forloop, if_pos hfor, hassoc]
    rw [epc, esf]
    refine ⟨?_, ?_, ?_, ?_⟩
    · rw [ctxTop_set_component_id, dlookup_dset_ne _ _ _ _ assoc_ne_current,
        dlookup_dset_ne _ _ _ _ assoc_ne_parent, ctxTop_ctxSet, dlookup_dset_self]
    · exact getD_append_length _ _ _
    · exact getD_append_lt _ _ _ _ hr
    · rw [dropLast_set_component_id, ctxSet_dropLast]
  · intro hfor
    have esf : prepare_context_step_forloop st = st := by
      rw [prepare_context_step_forloop,
        if_neg (fun hh => by rw [hfor] at hh; exact Bool.false_ne_true hh)]
    rw [epc, esf]

/-- C4 witness: a single-layer scope inside a loop, sharing map cell 0. -/
theorem prepare_context_forloop_cow_witness :
    ctxContains stC4.ctx "forloop" = true ∧
    dlookup (ctxTop (prepare_context SlotContextBehavior.default stC4 none "comp").ctx)
      SLOT_COMPONENT_ASSOC_KEY = some (Val.assocRef 1) ∧
    (prepare_context SlotContextBehavior.default stC4 none "comp").assocs.getD 1 []
      = stC4.assocs.getD 0 [] ∧
    (prepare_context SlotContextBehavior.default stC4 none "comp").assocs.getD 0 []
      = stC4.assocs.getD 0 [] ∧
    (prepare_context SlotContextBehavior.default stC4 none "comp").ctx.dropLast
      = stC4.ctx.dropLast := by
  have h := (prepare_context_forloop_cow SlotContextBehavior.default stC4 "comp" 0
    rfl rfl (by decide)).1 rfl
  exact ⟨rfl, h.1, h.2.1, h.2.2.1, h.2.2.2⟩

/-- C10 witness: a completely fresh scope. -/
theorem fill_registry_requires_init_witness :
    ctxGet stC10.ctx FILLED_SLOTS_CONTENT_CONTEXT_KEY = none ∧
    get_slot_fill stC10 "c1" "s1"
      = Except.error (PyErr.keyError FILLED_SLOTS_CONTENT_CONTEXT_KEY) ∧
    set_slot_fill stC10 "c1" "s1" 7
      = Except.error (PyErr.keyError FILLED_SLOTS_CONTENT_CONTEXT_KEY) ∧
    ctxContains (prepare_context SlotContextBehavior.default stC10 none "c1").ctx
      FILLED_SLOTS_CONTENT_CONTEXT_KEY = true := by
  refine ⟨rfl, ?_⟩
  have h := fill_registry_requires_init stC10 "c1" "s1" 7 rfl
  exact ⟨h.1, h.2.1, h.2.2⟩

theorem ctxContains_cons (d : Layer) (rest : Ctx) (k : String) :
    ctxContains (d :: rest) k = ((dlookup d k).isSome || ctxContains rest k) := by
  rw [ctxContains, ctxContains, ctxGet]
  cases ctxGet rest k <;> cases dlookup d k <;> rfl

theorem ctxContains_eq_any (c : Ctx) (k : String) :
    ctxContains c k = c.any (fun d => (dlookup d k).isSome) := by
  induction c with
  | nil => rfl
  | cons d rest ih => rw [ctxContains_cons, ih, List.any_cons]

theorem getD_mem {α : Type} (l : List α) (i : Nat) (d : α) (h : i < l.length) :
    l.getD i d ∈ l := by
  induction l generalizing i with
  | nil => exact absurd h (Nat.not_lt_zero i)
  | cons a as ih =>
    cases i with
    | zero => exact List.mem_cons_self _ _
    | succ j => exact List.mem_cons_of_mem _ (ih j (Nat.lt_of_succ_lt_succ h))

theorem find_last_index_sat {α : Type} (l : List α) (p : α → Bool) (d : α)
    (h : l.any p = true) : p (l.getD (find_last_index l p) d) = true := by
  induction l with
  | nil => simp at h
  | cons x xs ih =>
    rw [find_last_index]
    by_cases hxs : xs.any p = true
    · rw [if_pos hxs]
      exact ih hxs
    · rw [if_neg hxs]
      rcases List.any_eq_true.mp h with ⟨a, ha, hpa⟩
      rcases List.mem_cons.mp ha with h1 | h2
      · exact h1 ▸ hpa
      · exact absurd (List.any_eq_true.mpr ⟨a, h2, hpa⟩) hxs

theorem find_last_index_last {α : Type} (l : List α) (p : α → Bool) (d : α) (j : Nat)
    (h1 : find_last_index l p < j) (h2 : j < l.length) :
    p (l.getD j d) = false := by
  induction l generalizing j with
  | nil => exact absurd h2 (Nat.not_lt_zero j)
  | cons x xs ih =>
    rw [find_last_index] at h1
    by_cases hxs : xs.any p = true
    · rw [if_pos hxs] at h1
      cases j with
      | zero => exact absurd h1 (Nat.not_lt_zero _)
      | succ j0 => exact ih j0 (Nat.lt_of_succ_lt_succ h1) (Nat.lt_of_succ_lt_succ h2)
    · rw [if_neg hxs] at h1
      cases j with
      | zero => exact absurd h1 (Nat.lt_irrefl 0)
      | succ j0 =>
        have hj0 : j0 < xs.length := Nat.lt_of_succ_lt_succ h2
        cases hp : p (xs.getD j0 d)
        · exact hp
        · exact absurd (List.any_eq_true.mpr ⟨_, getD_mem xs j0 d hj0, hp⟩) hxs

/-- C8: when the source scope carries the iteration marker,
`copy_forloop_context` pushes onto the target scope the entire layer found at
the last (innermost) index carrying the marker — a layer that does carry the
marker, with every layer above it marker-free — and when the source carries no
marker the target is returned unchanged. -/
theorem copy_forloop_context_spec (from_context to_context : Ctx) :
    (ctxContains from_context "forloop" = true →
       copy_forloop_context from_context to_context
         = ctxPush to_context
             (from_context.getD (find_last_index from_context hasForloop) []) ∧
       hasForloop (from_context.getD (find_last_index from_context hasForloop) [])
         = true ∧
       (∀ j, find_last_index from_context hasForloop < j → j < from_context.length →
          hasForloop (from_context.getD j []) = false)) ∧
    (ctxContains from_context "forloop" = false →
       copy_forloop_context from_context to_context = to_context) := by
  constructor
  · intro h
    refine ⟨?_, ?_, ?_⟩
    · rw [copy_forloop_context, if_pos h]
    · refine find_last_index_sat _ _ _ ?_
      rw [ctxContains_eq_any] at h
      exact h
    · intro j hj1 hj2
      exact find_last_index_last _ _ _ _ hj1 hj2
  · intro h
    rw [copy_forloop_context,
      if_neg (fun hh => by rw [h] at hh; exact Bool.false_ne_true hh)]

/-- C8 witness: a two-layer scope whose bottom layer was pushed by the loop
(carrying both the marker and a loop-variable binding). -/
theorem copy_forloop_context_spec_witness :
    ctxContains fcW "forloop" = true ∧
    copy_forloop_context fcW tcW
      = ctxPush tcW (fcW.getD (find_last_index fcW hasForloop) []) ∧
    hasForloop (fcW.getD (find_last_index fcW hasForloop) []) = true ∧
    hasForloop (fcW.getD 1 []) = false :=
  ⟨rfl,
   ((copy_forloop_context_spec fcW tcW).1 rfl).1,
   ((copy_forloop_context_spec fcW tcW).1 rfl).2.1,
   ((copy_forloop_context_spec fcW tcW).1 rfl).2.2 1 (by decide) (by decide)⟩

theorem ctxGet_push_new (L : Layer) (k : String) :
    ctxGet (ctxPush newCtx L) k = dlookup L k := by
  show ctxGet [[], L] k = dlookup L k
  cases h : dlookup L k <;> simp [ctxGet, dlookup, oor, h]

theorem storedRoot_mk (c : Ctx) (a : List AssocMap) (f : List FillMap) (d : Ctx) :
    storedRoot ⟨ctxSet c OUTER_ROOT_CTX_CONTEXT_KEY (Val.ctx d), a, f⟩ = d := by
  simp only [storedRoot, get_outer_root_context, ctxGet_ctxSet_self]

theorem ctxGet_include_mappings_ne (st : St) (orc : Ctx) (k : String)
    (hka : k ≠ SLOT_COMPONENT_ASSOC_KEY)
    (hkf : k ≠ FILLED_SLOTS_CONTENT_CONTEXT_KEY) :
    ctxGet (include_mappings st orc) k = ctxGet orc k := by
  cases hA : ctxGet st.ctx SLOT_COMPONENT_ASSOC_KEY <;>
    cases hF : ctxGet st.ctx FILLED_SLOTS_CONTENT_CONTEXT_KEY <;>
    simp only [include_mappings, hA, hF] <;>
    first
    | rfl
    | rw [ctxGet_ctxSet_ne _ _ _ _ hkf, ctxGet_ctxSet_ne _ _ _ _ hka]
    | rw [ctxGet_ctxSet_ne _ _ _ _ hkf]
    | rw [ctxGet_ctxSet_ne _ _ _ _ hka]

/-- C1 counterexample: a top-level render (no parent component id on the
scope) under the ISOLATED policy with outer layers `[defaults, a-layer,
b-layer]`, on a scope that does not already hold an outer root context — the
guard at `context.py` line 143 then routes to the layer-index-1 branch, so the
stored outer root context exposes `a` but NOT `b`, contrary to the claim. -/
theorem outer_root_flatten_cex :
    ctxGet cexSt.ctx PARENT_COMP_KEY = none ∧
    ctxGet (storedRoot (set_outer_root_context SlotContextBehavior.isolated cexSt
      (some cexOuter))) "a" = some (Val.int 1) ∧
    ctxGet (storedRoot (set_outer_root_context SlotContextBehavior.isolated cexSt
      (some cexOuter))) "b" = none ∧
    ctxGet (storedRoot (prepare_context SlotContextBehavior.isolated cexSt
      (some cexOuter) "c1")) "b" = none :=
  ⟨rfl, rfl, rfl, rfl⟩

/-- C1 (amended): additionally assuming the scope already holds a previously
stored outer root context (the guard added "to avoid breaking tests"), a
top-level component render under ISOLATED with outer layers `[D, La, Lb]`
stores an outer root context that, on every non-reserved key, exposes the
flattened merge of the whole outer scope, the later layer winning on every
colliding key (`Lb` over `La` over `D`). -/
theorem outer_root_flatten_amended (st : St) (D La Lb : Layer) (k : String)
    (hpar : truthyOpt st (ctxGet st.ctx PARENT_COMP_KEY) = false)
    (hroot : ctxContains st.ctx OUTER_ROOT_CTX_CONTEXT_KEY = true)
    (hka : k ≠ SLOT_COMPONENT_ASSOC_KEY)
    (hkf : k ≠ FILLED_SLOTS_CONTENT_CONTEXT_KEY)
    (hndD : (D.map Prod.fst).Nodup) (hndA : (La.map Prod.fst).Nodup)
    (hndB : (Lb.map Prod.fst).Nodup) :
    ctxGet (storedRoot (set_outer_root_context SlotContextBehavior.isolated st
        (some [D, La, Lb]))) k
      = oor (dlookup Lb k) (oor (dlookup La k) (dlookup D k)) := by
  have hg : flattenGuard SlotContextBehavior.isolated st = true := by
    rw [flattenGuard, hpar, hroot]
    rfl
  simp only [set_outer_root_context]
  rw [if_pos hg, storedRoot_mk, ctxGet_include_mappings_ne _ _ _ hka hkf,
    ctxGet_push_new]
  show dlookup (dictUpdate (dictUpdate (dictUpdate [] D) La) Lb) k = _
  rw [dlookup_dictUpdate _ _ _ hndB, dlookup_dictUpdate _ _ _ hndA,
    dlookup_dictUpdate _ _ _ hndD]
  rw [show dlookup ([] : Layer) k = none from rfl, oor_none_right]

/-- C1 (amended) witness: with a prior outer root present, the key `"x"`,
bound in both non-default outer layers, resolves to the later layer's value. -/
theorem outer_root_flatten_amended_witness :
    truthyOpt stW (ctxGet stW.ctx PARENT_COMP_KEY) = false ∧
    ctxContains stW.ctx OUTER_ROOT_CTX_CONTEXT_KEY = true ∧
    ctxGet (storedRoot (set_outer_root_context SlotContextBehavior.isolated stW
        (some [wD, wLa, wLb]))) "x"
      = oor (dlookup wLb "x") (oor (dlookup wLa "x") (dlookup wD "x")) ∧
    ctxGet (storedRoot (set_outer_root_context SlotContextBehavior.isolated stW
        (some [wD, wLa, wLb]))) "x" = some (Val.int 9) :=
  ⟨rfl, rfl,
   outer_root_flatten_amended stW wD wLa wLb "x" rfl rfl (by decide) (by decide)
     (by decide) (by decide) (by decide),
   (outer_root_flatten_amended stW wD wLa wLb "x" rfl rfl (by decide) (by decide)
     (by decide) (by decide) (by decide)).trans rfl⟩

/-- C2: whenever the flattening special case does not apply and the outer
scope has more than one layer, the stored outer root context resolves every
non-reserved key exactly as the outer scope's layer at index 1 does — keys
bound only in layer 0 or in layers 2 and above are not exposed. -/
theorem outer_root_default_layer1 (policy : SlotContextBehavior) (st : St) (oc : Ctx)
    (k : String)
    (hnoflat : flattenGuard policy st = false)
    (hlen : 1 < oc.length)
    (hka : k ≠ SLOT_COMPONENT_ASSOC_KEY)
    (hkf : k ≠ FILLED_SLOTS_CONTENT_CONTEXT_KEY) :
    ctxGet (storedRoot (set_outer_root_context policy st (some oc))) k
      = dlookup (oc.getD 1 []) k := by
  simp only [set_outer_root_context]
  rw [if_neg (fun hh => by rw [hnoflat] at hh; exact Bool.false_ne_true hh),
    if_pos hlen, storedRoot_mk, ctxGet_include_mappings_ne _ _ _ hka hkf,
    ctxGet_push_new]

/-- C2 witness: under the DEFAULT policy with outer layers `[defaults,
a-layer, b-layer]`, the key from layer 1 is exposed and the key that is only
in layer 2 is not. -/
theorem outer_root_default_layer1_witness :
    flattenGuard SlotContextBehavior.default cexSt = false ∧
    ctxGet (storedRoot (set_outer_root_context SlotContextBehavior.default cexSt
        (some cexOuter))) "a" = dlookup (cexOuter.getD 1 []) "a" ∧
    ctxGet (storedRoot (set_outer_root_context SlotContextBehavior.default cexSt
        (some cexOuter))) "b" = dlookup (cexOuter.getD 1 []) "b" ∧
    dlookup (cexOuter.getD 1 []) "b" = none :=
  ⟨rfl,
   outer_root_default_layer1 SlotContextBehavior.default cexSt cexOuter "a" rfl
     (by decide) (by decide) (by decide),
   outer_root_default_layer1 SlotContextBehavior.default cexSt cexOuter "b" rfl
     (by decide) (by decide) (by decide),
   rfl⟩

end DC
